import Mathlib

/-!
Verification of the scan orchestration, onion-availability detection and
scoring engine of the securethenews repository, shallowly embedded in Lean.

Sources embedded:
- sites/models.py : the Scan record, its score computation (Scan._score),
  the save hook recomputing the score, and the grade property.
- sites/management/commands/scan.py : the pshtt transport prober wrapper,
  the blacklight privacy probe, the onion-availability detector
  (is_onion_available, is_onion_loc_in_meta_tag) and the management
  command batch handler (Command.handle).

Nullable (Django NullBoolean / nullable integer) fields are embedded as
Option Bool / Option Int; Python truthiness of such values is made explicit
by pyTruthy / pyTruthyInt.  Network and subprocess effects are abstracted
as oracle functions passed explicitly (a Fetch oracle for HTTP GETs, a
Prober oracle for the external pshtt process).
-/

namespace SecureTheNews

/-- Python truthiness of a nullable boolean: None and False are falsy. -/
def pyTruthy : Option Bool → Bool
  | some b => b
  | none => false

/-- Python truthiness of a nullable integer: None and 0 are falsy. -/
def pyTruthyInt : Option Int → Bool
  | some v => v != 0
  | none => false

/-- The HSTS max-age threshold used by Scan._score: 18 weeks in seconds
(models.py line 158, `eighteen_weeks = 18*7*24*60*60`). -/
def eighteen_weeks : Int := 18 * 7 * 24 * 60 * 60

/-- The guard of the max-age bonus in Scan._score (models.py line 159):
`if self.hsts_max_age and self.hsts_max_age >= eighteen_weeks`.  The first
conjunct is Python truthiness (None and 0 are falsy). -/
def hstsMaxAgeQualifies : Option Int → Bool
  | some v => decide (v ≠ 0 ∧ eighteen_weeks ≤ v)
  | none => false

/-- The Scan model of sites/models.py, restricted to the fields the scan
core reads and writes.  live is a plain BooleanField; the probe outcome
fields are NullBooleanField / nullable IntegerField. -/
structure Scan where
  site_domain : String
  live : Bool
  onion_available : Option Bool
  valid_https : Option Bool
  downgrades_https : Option Bool
  defaults_to_https : Option Bool
  hsts : Option Bool
  hsts_max_age : Option Int
  hsts_entire_domain : Option Bool
  hsts_preload_ready : Option Bool
  hsts_preloaded : Option Bool
  score : Int
  pshtt_stdout : String
  pshtt_stderr : String
deriving Repr, DecidableEq

/-- The value computed by Scan._score (models.py lines 141-173).  The
source initialises score to 0, overwrites it with a 30/50 baseline when
valid_https is truthy (30 when downgrades_https is truthy, else 50), and
when defaults_to_https is truthy supersedes the baseline with 70 plus the
six bonuses; this definition expresses that same sequence of overwrites
as nested conditionals (the final value of the mutated variable in each
branch). -/
def Scan.scoreOf (s : Scan) : Int :=
  if pyTruthy s.valid_https then
    if pyTruthy s.defaults_to_https then
      70 + (if pyTruthy s.hsts then 4 else 0)
         + (if hstsMaxAgeQualifies s.hsts_max_age then 4 else 0)
         + (if pyTruthy s.hsts_entire_domain then 6 else 0)
         + (if pyTruthy s.hsts_preload_ready then 4 else 0)
         + (if pyTruthy s.hsts_preloaded then 4 else 0)
         + (if pyTruthy s.onion_available then 4 else 0)
    else
      if pyTruthy s.downgrades_https then 30 else 50
  else 0

/-- Scan._score as a state update: it stores the computed value into the
score field (models.py line 173, `self.score = score`). -/
def Scan._score (s : Scan) : Scan :=
  { s with score := Scan.scoreOf s }

/-- The persistence sink, treated as an opaque append-only store of Scan
records. -/
abbrev DB := List Scan

/-- Scan.save (models.py lines 137-139): recompute the score via _score,
then append the record to the store. -/
def Scan.save (s : Scan) (db : DB) : DB :=
  db ++ [Scan._score s]

/-- The grade property (models.py lines 175-226): a letter grade from the
first if-chain and a presentation CSS class from the second; the class
chain ends with `elif score >= 0`, so a negative score yields no class
(embedded as none). -/
def Scan.grade (s : Scan) : String × Option String :=
  let score := s.score
  let grade :=
    if score > 95 then "A+"
    else if score ≥ 85 then "A"
    else if score ≥ 80 then "A-"
    else if score ≥ 75 then "B+"
    else if score ≥ 65 then "B"
    else if score ≥ 60 then "B-"
    else if score ≥ 55 then "C+"
    else if score ≥ 45 then "C"
    else if score ≥ 40 then "C-"
    else if score ≥ 35 then "D+"
    else if score ≥ 25 then "D"
    else if score ≥ 20 then "D-"
    else "F"
  let class_name :=
    if score ≥ 80 then some "grade-a"
    else if score ≥ 60 then some "grade-b"
    else if score ≥ 40 then some "grade-c"
    else if score ≥ 20 then some "grade-d"
    else if score ≥ 0 then some "grade-f"
    else none
  (grade, class_name)

/-- Modelled from the spec: the decision procedure of specification
section 4.3, written from the specification words for comparison with the
source-derived Scan.scoreOf.  The spec ProbeResult carries plain booleans
for the HTTPS/HSTS fields, an optional hstsMaxAgeSeconds and the tri-state
onionAvailability; the bonus for max age requires the value to be present
and at least 10886400. -/
def scoreSpec (validHTTPS downgradesHTTPS defaultsToHTTPS hsts : Bool)
    (hstsMaxAgeSeconds : Option Int)
    (hstsEntireDomain hstsPreloadReady hstsPreloaded : Bool)
    (onionAvailability : Option Bool) : Int :=
  if validHTTPS = false then 0
  else
    let baseline : Int := if downgradesHTTPS = false then 50 else 30
    if defaultsToHTTPS = true then
      70 + (if hsts then 4 else 0)
         + (if (match hstsMaxAgeSeconds with
                | some v => decide ((10886400 : Int) ≤ v)
                | none => false) then 4 else 0)
         + (if hstsEntireDomain then 6 else 0)
         + (if hstsPreloadReady then 4 else 0)
         + (if hstsPreloaded then 4 else 0)
         + (if onionAvailability = some true then 4 else 0)
    else baseline

/-- A Scan record carrying the given probe booleans, as the scoring engine
receives it from a probe result; fields the score does not read are fixed. -/
def mkScanOfBools (v dg df h : Bool) (ma : Option Int) (ed prr pl : Bool)
    (onion : Option Bool) : Scan :=
  { site_domain := "example.com", live := true, onion_available := onion,
    valid_https := some v, downgrades_https := some dg,
    defaults_to_https := some df, hsts := some h, hsts_max_age := ma,
    hsts_entire_domain := some ed, hsts_preload_ready := some prr,
    hsts_preloaded := some pl, score := 0,
    pshtt_stdout := "", pshtt_stderr := "" }

/-- Replace every unknown (None) nullable boolean read by the scoring
function with False, leaving known values unchanged. -/
def fillNullFalse (s : Scan) : Scan :=
  { s with
    onion_available := some (pyTruthy s.onion_available),
    valid_https := some (pyTruthy s.valid_https),
    downgrades_https := some (pyTruthy s.downgrades_https),
    defaults_to_https := some (pyTruthy s.defaults_to_https),
    hsts := some (pyTruthy s.hsts),
    hsts_entire_domain := some (pyTruthy s.hsts_entire_domain),
    hsts_preload_ready := some (pyTruthy s.hsts_preload_ready),
    hsts_preloaded := some (pyTruthy s.hsts_preloaded) }

lemma pyTruthy_some (b : Bool) : pyTruthy (some b) = b := rfl

lemma pyTruthy_some_pyTruthy (o : Option Bool) :
    pyTruthy (some (pyTruthy o)) = pyTruthy o := by
  rcases o with _ | b <;> rfl

lemma hstsMaxAgeQualifies_eq_specCond (ma : Option Int) :
    hstsMaxAgeQualifies ma =
      (match ma with
       | some v => decide ((10886400 : Int) ≤ v)
       | none => false) := by
  rcases ma with _ | v
  · rfl
  · show decide (v ≠ 0 ∧ eighteen_weeks ≤ v) = decide ((10886400 : Int) ≤ v)
    have he : eighteen_weeks = (10886400 : Int) := by decide
    by_cases hv : (10886400 : Int) ≤ v
    · simp [he, hv]; omega
    · simp [he, hv]

lemma pyTruthy_eq_decide_some_true (o : Option Bool) :
    pyTruthy o = decide (o = some true) := by
  rcases o with _ | b
  · rfl
  · cases b <;> rfl

/-! ## Onion availability detection (scan.py lines 89-140) -/

/-- A meta element of a fetched HTML page, restricted to the two attributes
the detector's xpath reads: http-equiv and content.  An absent attribute is
none. -/
structure MetaTag where
  httpEquiv : Option String
  content : Option String
deriving Repr, DecidableEq

/-- Outcome of one HTTP GET plus HTML parse of the response body: either a
requests/lxml failure (requests.exceptions.RequestException or
etree.ParserError), or the parsed page, abstracted as the list of its meta
elements (the only elements the detector's xpath can select). -/
inductive FetchResult where
  | failure
  | page (metas : List MetaTag)
deriving Repr, DecidableEq

/-- The network, abstracted as an oracle from URL to fetch outcome. -/
abbrev Fetch := String → FetchResult

/-- The node set selected by the xpath
`//meta[@http-equiv="onion-location"]/@content` (scan.py line 99): the
content attribute values of the meta elements whose http-equiv attribute
equals "onion-location" exactly (case-sensitive); a matching meta element
without a content attribute contributes no node. -/
def onionContents (metas : List MetaTag) : List String :=
  (metas.filter (fun t => t.httpEquiv == some "onion-location")).filterMap
    (fun t => t.content)

/-- is_onion_loc_in_meta_tag (scan.py lines 89-108): fetch the URL, run the
xpath, return True when at least one selected node exists, None on a fetch
or parse error, False otherwise. -/
def is_onion_loc_in_meta_tag (fetch : Fetch) (url : String) : Option Bool :=
  match fetch url with
  | FetchResult.failure => none
  | FetchResult.page metas =>
    if (onionContents metas).length ≥ 1 then some true else some false

/-- An endpoint object of the pshtt results, restricted to the two keys the
detector reads; a missing key (KeyError in the source) is none. -/
structure Endpoint where
  headers : Option (List (String × String))
  url : Option String
deriving Repr, DecidableEq

/-- The endpoints mapping of the pshtt results, keyed https / httpswww; a
missing endpoint key is none. -/
structure EndpointsMap where
  https : Option Endpoint
  httpswww : Option Endpoint
deriving Repr, DecidableEq

/-- The parsed pshtt results dictionary, restricted to the keys the scan
code reads.  The endpoints key itself may be missing (none). -/
structure PshttResults where
  live : Bool
  valid_https : Option Bool
  downgrades_https : Option Bool
  defaults_to_https : Option Bool
  hsts : Option Bool
  hsts_max_age : Option Int
  hsts_entire_domain : Option Bool
  hsts_preload_ready : Option Bool
  hsts_preloaded : Option Bool
  endpoints : Option EndpointsMap
deriving Repr, DecidableEq

/-- Lookup `pshtt_results["endpoints"][key]`; any KeyError on the way is
none (the source catches it and continues). -/
def endpointOf (pr : PshttResults) : String → Option Endpoint
  | "https" => pr.endpoints.bind (fun em => em.https)
  | "httpswww" => pr.endpoints.bind (fun em => em.httpswww)
  | _ => none

/-- Lookup `pshtt_results["endpoints"][key]["url"]`, none on KeyError. -/
def urlOf (pr : PshttResults) (key : String) : Option String :=
  (endpointOf pr key).bind (fun ep => ep.url)

/-- Python str.lower applied to a header name, implemented per character
(header names are ASCII). -/
def lowerString (s : String) : String :=
  String.mk (s.data.map Char.toLower)

/-- One iteration of the header loop (scan.py lines 119-126): the endpoint
exists, has a headers mapping, and
`'onion-location' in set(k.lower() for k in headers)`; a KeyError at any
level yields false (the source passes and continues). -/
def headerMatch (pr : PshttResults) (key : String) : Bool :=
  match endpointOf pr key with
  | none => false
  | some ep =>
    match ep.headers with
    | none => false
    | some hs => hs.any (fun kv => lowerString kv.1 == "onion-location")

/-- is_onion_available (scan.py lines 111-140), with the two-element loops
over ["https", "httpswww"] unrolled.  First loop: a header match returns
True immediately.  Second loop: for each endpoint with a url, call
is_onion_loc_in_meta_tag; any non-None result (True or False) is returned
immediately; a None result sets the accumulator to None and continues; a
KeyError leaves the accumulator unchanged.  The accumulator starts as
False and is returned after the loops. -/
def is_onion_available (fetch : Fetch) (pr : PshttResults) : Option Bool :=
  if headerMatch pr "https" then some true
  else if headerMatch pr "httpswww" then some true
  else
    match urlOf pr "https" with
    | some url =>
      match is_onion_loc_in_meta_tag fetch url with
      | some b => some b
      | none =>
        match urlOf pr "httpswww" with
        | some url2 =>
          match is_onion_loc_in_meta_tag fetch url2 with
          | some b => some b
          | none => none
        | none => none
    | none =>
      match urlOf pr "httpswww" with
      | some url2 =>
        match is_onion_loc_in_meta_tag fetch url2 with
        | some b => some b
        | none => none
      | none => some false

/-- is_onion_available instrumented with the list of URLs it fetches, in
order, to make the absence of network traffic in the header path
observable. -/
def is_onion_availableT (fetch : Fetch) (pr : PshttResults) :
    Option Bool × List String :=
  if headerMatch pr "https" then (some true, [])
  else if headerMatch pr "httpswww" then (some true, [])
  else
    match urlOf pr "https" with
    | some url =>
      match is_onion_loc_in_meta_tag fetch url with
      | some b => (some b, [url])
      | none =>
        match urlOf pr "httpswww" with
        | some url2 =>
          match is_onion_loc_in_meta_tag fetch url2 with
          | some b => (some b, [url, url2])
          | none => (none, [url, url2])
        | none => (none, [url])
    | none =>
      match urlOf pr "httpswww" with
      | some url2 =>
        match is_onion_loc_in_meta_tag fetch url2 with
        | some b => (some b, [url2])
        | none => (none, [url2])
      | none => (some false, [])

lemma is_onion_availableT_fst (fetch : Fetch) (pr : PshttResults) :
    (is_onion_availableT fetch pr).1 = is_onion_available fetch pr := by
  by_cases h1 : headerMatch pr "https"
  · simp [is_onion_availableT, is_onion_available, h1]
  · by_cases h2 : headerMatch pr "httpswww"
    · simp [is_onion_availableT, is_onion_available, h1, h2]
    · cases hu : urlOf pr "https" with
      | none =>
        cases hw : urlOf pr "httpswww" with
        | none =>
          simp [is_onion_availableT, is_onion_available, h1, h2, hu, hw]
        | some u2 =>
          cases hm2 : is_onion_loc_in_meta_tag fetch u2 <;>
            simp [is_onion_availableT, is_onion_available, h1, h2, hu, hw, hm2]
      | some u =>
        cases hm : is_onion_loc_in_meta_tag fetch u with
        | none =>
          cases hw : urlOf pr "httpswww" with
          | none =>
            simp [is_onion_availableT, is_onion_available, h1, h2, hu, hm, hw]
          | some u2 =>
            cases hm2 : is_onion_loc_in_meta_tag fetch u2 <;>
              simp [is_onion_availableT, is_onion_available, h1, h2, hu, hm, hw, hm2]
        | some b =>
          simp [is_onion_availableT, is_onion_available, h1, h2, hu, hm]

/-! ## Scan orchestration (scan.py lines 54-86 and 143-198) -/

/-- A known site (sites/models.py Site), restricted to the fields the scan
command reads. -/
structure Site where
  name : String
  domain : String
deriving Repr, DecidableEq

/-- The fatal failure of the external pshtt invocation: the tool could not
be launched, timed out, exited abnormally, or emitted unparseable output
(json.loads of its stdout fails, scan.py line 84). -/
inductive ProbeExecutionError where
  | mk
deriving Repr, DecidableEq

/-- The value of a successful pshtt call (scan.py lines 72-86): the parsed
results object together with the raw stdout and stderr of the tool. -/
structure PshttOutput where
  results : PshttResults
  stdout : String
  stderr : String
deriving Repr, DecidableEq

/-- The external pshtt process, abstracted as an oracle from domain to
outcome; pshtt of scan.py forwards the domain to the tool and parses the
array-of-one-object JSON it emits, and any failure is fatal. -/
abbrev Prober := String → Except ProbeExecutionError PshttOutput

/-- blacklight (scan.py lines 54-68): writes scan.js, runs it under node,
collects stdout/stderr, then stops at a debugger breakpoint; the function
body ends without a return statement, so its value is Python None,
embedded as none.  (A triple is what the caller tries to unpack it into.) -/
def blacklight (_domain : String) : Option (Unit × String × String) :=
  none

/-- An error escaping the per-domain scan function. -/
inductive ScanError where
  | probeFailure (domain : String)
  | unpackNone (domain : String)
deriving Repr, DecidableEq

/-- scan (scan.py lines 143-168): run pshtt on the site's domain, then run
blacklight and unpack its result into three variables — a TypeError
(unpackNone) because blacklight returns None — and only then construct the
Scan record and save it into the store.  The record construction in the
dead branch mirrors the source, where the second unpacking rebinds stdout
and stderr to blacklight's before they are stored. -/
def scan (prober : Prober) (fetch : Fetch) (site : Site) (db : DB) :
    Except ScanError DB :=
  match prober site.domain with
  | Except.error _ => Except.error (ScanError.probeFailure site.domain)
  | Except.ok out =>
    match blacklight site.domain with
    | none => Except.error (ScanError.unpackNone site.domain)
    | some (_privacy_results, bstdout, bstderr) =>
      let results := out.results
      let record : Scan :=
        { site_domain := site.domain,
          live := results.live,
          valid_https := results.valid_https,
          downgrades_https := results.downgrades_https,
          defaults_to_https := results.defaults_to_https,
          hsts := results.hsts,
          hsts_max_age := results.hsts_max_age,
          hsts_entire_domain := results.hsts_entire_domain,
          hsts_preload_ready := results.hsts_preload_ready,
          hsts_preloaded := results.hsts_preloaded,
          onion_available := is_onion_available fetch results,
          score := 0,
          pshtt_stdout := bstdout,
          pshtt_stderr := bstderr }
      Except.ok (Scan.save record db)

/-- An error escaping Command.handle: the CommandError for an unknown
explicitly named domain (scan.py lines 188-191), or a scan failure
propagating out of the transaction. -/
inductive CmdError where
  | unknownDomain (domain : String)
  | scanFailed (e : ScanError)
deriving Repr, DecidableEq

/-- The resolution loop of Command.handle (scan.py lines 183-191): look up
each named domain among the known sites; an unknown domain raises
CommandError immediately. -/
def resolveSites (allSites : List Site) : List String → Except CmdError (List Site)
  | [] => Except.ok []
  | d :: rest =>
    match allSites.find? (fun s => s.domain == d) with
    | some s => (resolveSites allSites rest).map (fun ss => s :: ss)
    | none => Except.error (CmdError.unknownDomain d)

/-- The site-selection step of Command.handle: an empty argument list is
falsy in Python, so all known sites are scanned; otherwise each named
domain is resolved. -/
def requestedSites (allSites : List Site) (requested : List String) :
    Except CmdError (List Site) :=
  match requested with
  | [] => Except.ok allSites
  | _ => resolveSites allSites requested

/-- The loop inside the transaction (scan.py lines 195-198): scan each
site in order, threading the staged store; the first error aborts the
loop. -/
def runScans (prober : Prober) (fetch : Fetch) :
    List Site → DB → Except ScanError DB
  | [], db => Except.ok db
  | s :: rest, db =>
    match scan prober fetch s db with
    | Except.error e => Except.error e
    | Except.ok db2 => runScans prober fetch rest db2

/-- Command.handle (scan.py lines 180-198): resolve the requested sites,
then run every scan inside transaction.atomic.  The transaction is
embedded by its semantics: on success the staged store is committed, on
any exception the store reverts to its pre-transaction state and the
error escapes.  The result is the final store plus the escaping error, if
any. -/
def handle (prober : Prober) (fetch : Fetch) (allSites : List Site)
    (requested : List String) (db : DB) : DB × Option CmdError :=
  match requestedSites allSites requested with
  | Except.error e => (db, some e)
  | Except.ok sites =>
    match runScans prober fetch sites db with
    | Except.ok db2 => (db2, none)
    | Except.error e => (db, some (CmdError.scanFailed e))

/-- runScans instrumented with the list of domains handed to the prober,
in order. -/
def runScansT (prober : Prober) (fetch : Fetch) :
    List Site → DB → Except ScanError DB × List String
  | [], db => (Except.ok db, [])
  | s :: rest, db =>
    match scan prober fetch s db with
    | Except.error e => (Except.error e, [s.domain])
    | Except.ok db2 =>
      let r := runScansT prober fetch rest db2
      (r.1, s.domain :: r.2)

/-- Command.handle instrumented with the list of domains handed to the
prober: probing happens only inside the transaction loop, after every
requested domain has been resolved. -/
def handleT (prober : Prober) (fetch : Fetch) (allSites : List Site)
    (requested : List String) (db : DB) : (DB × Option CmdError) × List String :=
  match requestedSites allSites requested with
  | Except.error e => ((db, some e), [])
  | Except.ok sites =>
    match runScansT prober fetch sites db with
    | (Except.ok db2, tr) => ((db2, none), tr)
    | (Except.error e, tr) => ((db, some (CmdError.scanFailed e)), tr)

lemma runScansT_fst (prober : Prober) (fetch : Fetch) (sites : List Site)
    (db : DB) :
    (runScansT prober fetch sites db).1 = runScans prober fetch sites db := by
  induction sites generalizing db with
  | nil => rfl
  | cons s rest ih =>
    simp only [runScansT, runScans]
    cases hs : scan prober fetch s db with
    | error e => rfl
    | ok db2 => simpa using ih db2

lemma handleT_fst (prober : Prober) (fetch : Fetch) (allSites : List Site)
    (requested : List String) (db : DB) :
    (handleT prober fetch allSites requested db).1 =
      handle prober fetch allSites requested db := by
  unfold handleT handle
  cases hr : requestedSites allSites requested with
  | error e => rfl
  | ok sites =>
    cases htt : runScansT prober fetch sites db with
    | mk r tr =>
      have ht := runScansT_fst prober fetch sites db
      rw [htt] at ht
      cases r <;> simp only [htt, ← ht]

/-- The per-domain scan always fails: either the probe fails, or the
unpacking of blacklight's None return value fails. -/
lemma scan_always_errors (prober : Prober) (fetch : Fetch) (site : Site)
    (db : DB) : ∃ e, scan prober fetch site db = Except.error e := by
  unfold scan
  cases hp : prober site.domain with
  | error e => exact ⟨ScanError.probeFailure site.domain, rfl⟩
  | ok out => exact ⟨ScanError.unpackNone site.domain, rfl⟩

/-- A nonempty batch of sites always aborts inside the transaction. -/
lemma runScans_cons_errors (prober : Prober) (fetch : Fetch) (s : Site)
    (rest : List Site) (db : DB) :
    ∃ e, runScans prober fetch (s :: rest) db = Except.error e := by
  obtain ⟨e, he⟩ := scan_always_errors prober fetch s db
  exact ⟨e, by simp [runScans, he]⟩

/-- An unknown requested domain makes resolution fail. -/
lemma resolveSites_unknown (allSites : List Site) (requested : List String)
    (d : String) (hd : d ∈ requested)
    (hu : allSites.find? (fun s => s.domain == d) = none) :
    ∃ e, resolveSites allSites requested = Except.error e := by
  induction requested with
  | nil => cases hd
  | cons r rest ih =>
    cases hr : allSites.find? (fun s => s.domain == r) with
    | none => exact ⟨CmdError.unknownDomain r, by simp [resolveSites, hr]⟩
    | some s =>
      rcases List.mem_cons.mp hd with rfl | hmem
      · rw [hr] at hu; cases hu
      · obtain ⟨e, he⟩ := ih hmem
        exact ⟨e, by simp [resolveSites, hr, he, Except.map]⟩

/-! ## Concrete values used by witnesses and counterexamples -/

/-- A concrete Scan record used to instantiate universally quantified
theorems at specific scores. -/
def demoScan : Scan :=
  { site_domain := "example.com", live := true, onion_available := some false,
    valid_https := some true, downgrades_https := some false,
    defaults_to_https := some true, hsts := some true,
    hsts_max_age := some 31536000, hsts_entire_domain := some true,
    hsts_preload_ready := some false, hsts_preloaded := some false,
    score := 0, pshtt_stdout := "", pshtt_stderr := "" }

/-! ## Claim theorems: scoring and grading -/

/-- C1: Scan._score is pure and total and equals the specification's
decision procedure: validHTTPS false gives 0; otherwise the 50/30 baseline
(30 when downgradesHTTPS), superseded by 70 plus the +4/+4/+6/+4/+4/+4
bonuses when defaultsToHTTPS; and for every record 0 <= score <= 100, so
the internal range assertion of models.py line 171 never fires. -/
theorem score_matches_spec_and_in_range :
    (∀ (v dg df h ed prr pl : Bool) (ma : Option Int) (onion : Option Bool),
      Scan.scoreOf (mkScanOfBools v dg df h ma ed prr pl onion) =
        scoreSpec v dg df h ma ed prr pl onion) ∧
    (∀ s : Scan, 0 ≤ Scan.scoreOf s ∧ Scan.scoreOf s ≤ 100) := by
  constructor
  · intro v dg df h ed prr pl ma onion
    cases v <;> cases dg <;> cases df <;>
      simp [Scan.scoreOf, scoreSpec, mkScanOfBools, pyTruthy_some,
        hstsMaxAgeQualifies_eq_specCond, pyTruthy_eq_decide_some_true]
  · intro s
    unfold Scan.scoreOf
    split_ifs <;> omega

/-- C9: Scan.save recomputes the score from the other fields before the
record is persisted, so whatever score the record carried beforehand is
overwritten and a directly supplied score is never stored. -/
theorem save_recomputes_score :
    ∀ (s : Scan) (v : Int) (db : DB),
      Scan.save { s with score := v } db = Scan.save s db ∧
      Scan.save s db = db ++ [{ s with score := Scan.scoreOf s }] := by
  intro s v db
  exact ⟨rfl, rfl⟩

/-- C10: scoring treats an unknown (None) nullable boolean exactly like
False — replacing every None among the eight boolean inputs by False
leaves the score unchanged — and an absent or zero hsts_max_age earns no
max-age bonus. -/
theorem score_treats_null_as_false :
    (∀ s : Scan, Scan.scoreOf (fillNullFalse s) = Scan.scoreOf s) ∧
    (∀ s : Scan, Scan.scoreOf { s with hsts_max_age := none } =
      Scan.scoreOf { s with hsts_max_age := some 0 }) ∧
    hstsMaxAgeQualifies none = false ∧
    hstsMaxAgeQualifies (some 0) = false := by
  have h0 : hstsMaxAgeQualifies (some 0) = false := by decide
  refine ⟨fun s => ?_, fun s => ?_, rfl, h0⟩
  · simp [Scan.scoreOf, fillNullFalse, pyTruthy_some_pyTruthy]
  · have hn : hstsMaxAgeQualifies none = false := rfl
    simp [Scan.scoreOf, hn, h0]

/-- The claim's grade table and class boundaries, stated for one record:
each letter is produced exactly on its score range, each CSS class exactly
on its coarser range. -/
def gradeClaims (s : Scan) : Prop :=
  (s.grade.1 = "A+" ↔ 95 < s.score) ∧
  (s.grade.1 = "A" ↔ 85 ≤ s.score ∧ s.score ≤ 95) ∧
  (s.grade.1 = "A-" ↔ 80 ≤ s.score ∧ s.score ≤ 84) ∧
  (s.grade.1 = "B+" ↔ 75 ≤ s.score ∧ s.score ≤ 79) ∧
  (s.grade.1 = "B" ↔ 65 ≤ s.score ∧ s.score ≤ 74) ∧
  (s.grade.1 = "B-" ↔ 60 ≤ s.score ∧ s.score ≤ 64) ∧
  (s.grade.1 = "C+" ↔ 55 ≤ s.score ∧ s.score ≤ 59) ∧
  (s.grade.1 = "C" ↔ 45 ≤ s.score ∧ s.score ≤ 54) ∧
  (s.grade.1 = "C-" ↔ 40 ≤ s.score ∧ s.score ≤ 44) ∧
  (s.grade.1 = "D+" ↔ 35 ≤ s.score ∧ s.score ≤ 39) ∧
  (s.grade.1 = "D" ↔ 25 ≤ s.score ∧ s.score ≤ 34) ∧
  (s.grade.1 = "D-" ↔ 20 ≤ s.score ∧ s.score ≤ 24) ∧
  (s.grade.1 = "F" ↔ s.score ≤ 19) ∧
  (s.grade.2 = some "grade-a" ↔ 80 ≤ s.score) ∧
  (s.grade.2 = some "grade-b" ↔ 60 ≤ s.score ∧ s.score < 80) ∧
  (s.grade.2 = some "grade-c" ↔ 40 ≤ s.score ∧ s.score < 60) ∧
  (s.grade.2 = some "grade-d" ↔ 20 ≤ s.score ∧ s.score < 40) ∧
  (s.grade.2 = some "grade-f" ↔ s.score < 20)

instance gradeClaims_decidable (s : Scan) : Decidable (gradeClaims s) := by
  unfold gradeClaims
  infer_instance

lemma grade_depends_only_on_score (s t : Scan) (h : s.score = t.score) :
    s.grade = t.grade := by
  unfold Scan.grade
  rw [h]

lemma gradeClaims_depends_only_on_score (s t : Scan) (h : s.score = t.score) :
    gradeClaims s ↔ gradeClaims t := by
  unfold gradeClaims
  rw [grade_depends_only_on_score s t h, h]

/-- C8: on scores in [0, 100] the grade property is total and pure and
matches the specification table, letters and CSS classes alike. -/
theorem grade_matches_table (s : Scan) (h0 : 0 ≤ s.score)
    (h1 : s.score ≤ 100) : gradeClaims s := by
  obtain ⟨n, hn, hsc⟩ : ∃ n : Nat, n < 101 ∧ s.score = (n : Int) :=
    ⟨s.score.toNat, by omega, by omega⟩
  have key : ∀ n : Nat, n < 101 →
      gradeClaims { demoScan with score := (n : Int) } := by decide
  have h2 : gradeClaims { demoScan with score := s.score } := by
    rw [hsc]; exact key n hn
  exact (gradeClaims_depends_only_on_score
    { demoScan with score := s.score } s rfl).mp h2

/-- Witness for C8 at the concrete score 90. -/
theorem grade_matches_table_witness :
    gradeClaims { demoScan with score := 90 } :=
  grade_matches_table { demoScan with score := 90 } (by decide) (by decide)

/-! ## Claim theorems: onion availability detection -/

/-- Whether a fetched page carries at least one node selected by the
detector's xpath (a matching meta element with a content attribute). -/
def pageHasOnion (metas : List MetaTag) : Bool :=
  decide ((onionContents metas).length ≥ 1)

lemma is_onion_loc_page (fetch : Fetch) (url : String) (metas : List MetaTag)
    (h : fetch url = FetchResult.page metas) :
    is_onion_loc_in_meta_tag fetch url = some (pageHasOnion metas) := by
  unfold is_onion_loc_in_meta_tag pageHasOnion
  rw [h]
  by_cases hc : (onionContents metas).length ≥ 1 <;> simp [hc]

lemma is_onion_loc_failure (fetch : Fetch) (url : String)
    (h : fetch url = FetchResult.failure) :
    is_onion_loc_in_meta_tag fetch url = none := by
  unfold is_onion_loc_in_meta_tag
  rw [h]

lemma pageHasOnion_iff (metas : List MetaTag) :
    pageHasOnion metas = true ↔
      ∃ t, t ∈ metas ∧ t.httpEquiv = some "onion-location" ∧
        ∃ c, t.content = some c := by
  unfold pageHasOnion onionContents
  rw [decide_eq_true_eq]
  rw [show ((List.filterMap (fun t => t.content)
      (List.filter (fun t => t.httpEquiv == some "onion-location") metas)).length ≥ 1) ↔
      (0 < (List.filterMap (fun t => t.content)
      (List.filter (fun t => t.httpEquiv == some "onion-location") metas)).length) from Iff.rfl]
  rw [List.length_pos_iff_exists_mem]
  simp only [List.mem_filterMap, List.mem_filter, beq_iff_eq]
  constructor
  · rintro ⟨c, t, ⟨ht, he⟩, hc⟩
    exact ⟨t, ht, he, c, hc⟩
  · rintro ⟨t, ht, he, c, hc⟩
    exact ⟨c, t, ⟨ht, he⟩, hc⟩

/-- C7: a case-insensitive onion-location header on the https or httpswww
endpoint makes the detector return true with no HTTP fetch performed; a
missing endpoint or missing headers mapping is skipped, never an error. -/
theorem header_check_short_circuits :
    (∀ (fetch : Fetch) (pr : PshttResults),
      (headerMatch pr "https" = true ∨ headerMatch pr "httpswww" = true) →
      is_onion_availableT fetch pr = (some true, [])) ∧
    (∀ (pr : PshttResults) (key : String),
      endpointOf pr key = none → headerMatch pr key = false) ∧
    (∀ (pr : PshttResults) (key : String) (ep : Endpoint),
      endpointOf pr key = some ep → ep.headers = none →
      headerMatch pr key = false) := by
  refine ⟨fun fetch pr h => ?_, fun pr key h => ?_, fun pr key ep h1 h2 => ?_⟩
  · rcases h with h | h
    · simp [is_onion_availableT, h]
    · by_cases h1 : headerMatch pr "https"
      · simp [is_onion_availableT, h1]
      · simp [is_onion_availableT, h1, h]
  · simp [headerMatch, h]
  · simp [headerMatch, h1, h2]

/-- A probe result whose https endpoint announces Onion-Location in its
headers (with mixed case, as pshtt reports it). -/
def demoPrHeader : PshttResults :=
  { live := true, valid_https := some true, downgrades_https := some false,
    defaults_to_https := some true, hsts := some true,
    hsts_max_age := some 31536000, hsts_entire_domain := some false,
    hsts_preload_ready := some false, hsts_preloaded := some false,
    endpoints := some
      { https := some
          { headers := some [("Onion-Location", "http://x.onion")],
            url := some "https://news.example" },
        httpswww := none } }

/-- A fetch oracle on which every HTTP GET fails. -/
def demoFetchFail : Fetch := fun _ => FetchResult.failure

/-- Witness for C7: with the header present, the detector answers true and
its fetch trace is empty even though every fetch would fail. -/
theorem header_check_short_circuits_witness :
    is_onion_availableT demoFetchFail demoPrHeader = (some true, []) :=
  header_check_short_circuits.1 demoFetchFail demoPrHeader (Or.inl (by decide))

/-- A probe result with both endpoints present (no headers mappings) and
distinct URLs, driving the detector into the fallback content check. -/
def demoPrUrls : PshttResults :=
  { live := true, valid_https := some true, downgrades_https := some false,
    defaults_to_https := some true, hsts := some false,
    hsts_max_age := none, hsts_entire_domain := some false,
    hsts_preload_ready := some false, hsts_preloaded := some false,
    endpoints := some
      { https := some { headers := none, url := some "https://a.example" },
        httpswww := some { headers := none, url := some "https://b.example" } } }

/-- C6: with no header match, if at least one endpoint is present with a
URL and every present endpoint's fallback fetch fails, the detector
returns unknown — never false. -/
theorem fallback_all_failures_unknown :
    ∀ (fetch : Fetch) (pr : PshttResults),
      headerMatch pr "https" = false → headerMatch pr "httpswww" = false →
      (urlOf pr "https" ≠ none ∨ urlOf pr "httpswww" ≠ none) →
      (∀ u, urlOf pr "https" = some u → fetch u = FetchResult.failure) →
      (∀ u, urlOf pr "httpswww" = some u → fetch u = FetchResult.failure) →
      is_onion_available fetch pr = none := by
  intro fetch pr h1 h2 hpresent hf1 hf2
  cases hu : urlOf pr "https" with
  | none =>
    cases hw : urlOf pr "httpswww" with
    | none =>
      exfalso
      rcases hpresent with h | h
      · exact h hu
      · exact h hw
    | some u2 =>
      have hfu2 := is_onion_loc_failure fetch u2 (hf2 u2 hw)
      simp [is_onion_available, h1, h2, hu, hw, hfu2]
  | some u =>
    have hfu := is_onion_loc_failure fetch u (hf1 u hu)
    cases hw : urlOf pr "httpswww" with
    | none => simp [is_onion_available, h1, h2, hu, hw, hfu]
    | some u2 =>
      have hfu2 := is_onion_loc_failure fetch u2 (hf2 u2 hw)
      simp [is_onion_available, h1, h2, hu, hw, hfu, hfu2]

/-- Witness for C6: both endpoints present, both fetches fail, result is
unknown. -/
theorem fallback_all_failures_unknown_witness :
    is_onion_available demoFetchFail demoPrUrls = none :=
  fallback_all_failures_unknown demoFetchFail demoPrUrls (by decide) (by decide)
    (Or.inl (by decide)) (fun u _ => rfl) (fun u _ => rfl)

/-- A fetch oracle on which the first endpoint's page fetch succeeds with
no matching meta element while the second endpoint's fetch fails. -/
def fetchFirstEmptySecondFails : Fetch :=
  fun u => if u == "https://a.example" then FetchResult.page [] else FetchResult.failure

/-- Counterexample to C4: with no header match, the https endpoint's
successful no-match fetch makes the detector return false immediately,
even though the httpswww endpoint is present and its fetch fails; the
claim requires the later failure to overwrite the earlier false, i.e. an
unknown result, and requires that a successful no-match on the first
endpoint not decide the result by itself. -/
theorem fallback_counterexample :
    is_onion_available fetchFirstEmptySecondFails demoPrUrls = some false ∧
    headerMatch demoPrUrls "https" = false ∧
    headerMatch demoPrUrls "httpswww" = false ∧
    urlOf demoPrUrls "httpswww" = some "https://b.example" ∧
    fetchFirstEmptySecondFails "https://b.example" = FetchResult.failure ∧
    is_onion_available fetchFirstEmptySecondFails demoPrUrls ≠ none := by
  refine ⟨by decide, by decide, by decide, by decide, by decide, by decide⟩

/-- C4 amended: over the fixed order [https, httpswww] with no header
match, the first endpoint whose fetch succeeds decides the result
immediately — true on a match, false on no match — so a later success
overrides an earlier failure but a later failure never overwrites an
earlier successful false; a failure only sets the running value to
unknown and evaluation continues, so the result is unknown when every
performed fetch fails, and false exactly when both endpoints are absent
or the first successfully fetched endpoint produced no match. -/
theorem fallback_order_behavior :
    ∀ (fetch : Fetch) (pr : PshttResults),
      headerMatch pr "https" = false → headerMatch pr "httpswww" = false →
      ((∀ u metas, urlOf pr "https" = some u →
          fetch u = FetchResult.page metas →
          is_onion_available fetch pr = some (pageHasOnion metas)) ∧
       (∀ u u2 metas, urlOf pr "https" = some u →
          fetch u = FetchResult.failure →
          urlOf pr "httpswww" = some u2 → fetch u2 = FetchResult.page metas →
          is_onion_available fetch pr = some (pageHasOnion metas)) ∧
       (∀ u2 metas, urlOf pr "https" = none →
          urlOf pr "httpswww" = some u2 → fetch u2 = FetchResult.page metas →
          is_onion_available fetch pr = some (pageHasOnion metas)) ∧
       (∀ u u2, urlOf pr "https" = some u → fetch u = FetchResult.failure →
          urlOf pr "httpswww" = some u2 → fetch u2 = FetchResult.failure →
          is_onion_available fetch pr = none) ∧
       (∀ u, urlOf pr "https" = some u → fetch u = FetchResult.failure →
          urlOf pr "httpswww" = none → is_onion_available fetch pr = none) ∧
       (∀ u2, urlOf pr "https" = none → urlOf pr "httpswww" = some u2 →
          fetch u2 = FetchResult.failure → is_onion_available fetch pr = none) ∧
       (urlOf pr "https" = none → urlOf pr "httpswww" = none →
          is_onion_available fetch pr = some false)) := by
  intro fetch pr h1 h2
  refine ⟨?_, ?_, ?_, ?_, ?_, ?_, ?_⟩
  · intro u metas hu hp
    simp [is_onion_available, h1, h2, hu, is_onion_loc_page fetch u metas hp]
  · intro u u2 metas hu hf hw hp
    simp [is_onion_available, h1, h2, hu, hw, is_onion_loc_failure fetch u hf,
      is_onion_loc_page fetch u2 metas hp]
  · intro u2 metas hu hw hp
    simp [is_onion_available, h1, h2, hu, hw,
      is_onion_loc_page fetch u2 metas hp]
  · intro u u2 hu hf hw hf2
    simp [is_onion_available, h1, h2, hu, hw, is_onion_loc_failure fetch u hf,
      is_onion_loc_failure fetch u2 hf2]
  · intro u hu hf hw
    simp [is_onion_available, h1, h2, hu, hw, is_onion_loc_failure fetch u hf]
  · intro u2 hu hw hf2
    simp [is_onion_available, h1, h2, hu, hw,
      is_onion_loc_failure fetch u2 hf2]
  · intro hu hw
    simp [is_onion_available, h1, h2, hu, hw]

/-- Witness for the amended C4: the first endpoint's successful no-match
fetch yields false although the second endpoint's fetch would fail. -/
theorem fallback_order_behavior_witness :
    is_onion_available fetchFirstEmptySecondFails demoPrUrls =
      some (pageHasOnion []) :=
  (fallback_order_behavior fetchFirstEmptySecondFails demoPrUrls
    (by decide) (by decide)).1 "https://a.example" [] (by decide) (by decide)

/-- A page whose only meta element matches the http-equiv test but has no
content attribute, so the xpath selects no node. -/
def metasNoContent : List MetaTag :=
  [{ httpEquiv := some "onion-location", content := none }]

/-- A fetch oracle always returning the content-less matching page. -/
def fetchPageNoContent : Fetch := fun _ => FetchResult.page metasNoContent

/-- Counterexample to C5: the page contains a meta element with
http-equiv equal to onion-location and no content attribute, and the
fallback check returns false, not true — the xpath of scan.py line 99
selects the content attribute, so a matching element without one yields
no node. -/
theorem meta_tag_counterexample :
    is_onion_loc_in_meta_tag fetchPageNoContent "https://a.example" = some false ∧
    MetaTag.mk (some "onion-location") none ∈ metasNoContent ∧
    (MetaTag.mk (some "onion-location") none).httpEquiv = some "onion-location" ∧
    (MetaTag.mk (some "onion-location") none).content = none := by
  refine ⟨by decide, by decide, rfl, rfl⟩

/-- C5 amended: a fetched page matches exactly when it contains at least
one meta element whose http-equiv attribute equals "onion-location"
(case-sensitive) and which carries a content attribute; the value of the
content attribute is irrelevant. -/
theorem meta_tag_match_characterization :
    ∀ (fetch : Fetch) (url : String) (metas : List MetaTag),
      fetch url = FetchResult.page metas →
      (is_onion_loc_in_meta_tag fetch url = some true ↔
        ∃ t, t ∈ metas ∧ t.httpEquiv = some "onion-location" ∧
          ∃ c, t.content = some c) ∧
      (is_onion_loc_in_meta_tag fetch url = some false ↔
        ¬ ∃ t, t ∈ metas ∧ t.httpEquiv = some "onion-location" ∧
          ∃ c, t.content = some c) := by
  intro fetch url metas h
  rw [is_onion_loc_page fetch url metas h]
  constructor
  · rw [← pageHasOnion_iff metas]
    cases pageHasOnion metas <;> simp
  · rw [← pageHasOnion_iff metas]
    cases pageHasOnion metas <;> simp

/-- A page carrying a matching meta element with a content attribute. -/
def metasWithContent : List MetaTag :=
  [{ httpEquiv := some "onion-location", content := some "http://x.onion" }]

/-- A fetch oracle always returning the matching page. -/
def fetchPageWithContent : Fetch := fun _ => FetchResult.page metasWithContent

/-- Witness for the amended C5 at a page with a matching element carrying
a content attribute. -/
theorem meta_tag_match_characterization_witness :
    is_onion_loc_in_meta_tag fetchPageWithContent "https://a.example" =
      some true :=
  (meta_tag_match_characterization fetchPageWithContent "https://a.example"
      metasWithContent rfl).1.mpr
    ⟨MetaTag.mk (some "onion-location") (some "http://x.onion"), by decide,
      rfl, "http://x.onion", rfl⟩

/-! ## Claim theorems: batch orchestration -/

/-- A concrete pshtt results object (no endpoints). -/
def demoPshttResults : PshttResults :=
  { live := true, valid_https := some true, downgrades_https := some false,
    defaults_to_https := some true, hsts := some false,
    hsts_max_age := none, hsts_entire_domain := some false,
    hsts_preload_ready := some false, hsts_preloaded := some false,
    endpoints := none }

/-- A concrete successful pshtt output. -/
def demoOut : PshttOutput :=
  { results := demoPshttResults, stdout := "[]", stderr := "" }

/-- A prober on which every probe succeeds. -/
def demoProberOk : Prober := fun _ => Except.ok demoOut

/-- A prober on which every probe raises ProbeExecutionError. -/
def demoProberFail : Prober := fun _ => Except.error ProbeExecutionError.mk

/-- A concrete known site. -/
def demoSite : Site := { name := "Example", domain := "example.com" }

/-- C2: the batch is all-or-nothing.  An explicitly named domain with no
known site makes the whole command fail with the store untouched and no
probe invoked; and whenever the resolved batch contains a site whose
probe fails, the command fails and the store is left exactly as before
the batch — including any records of domains processed earlier. -/
theorem batch_all_or_nothing :
    (∀ (prober : Prober) (fetch : Fetch) (allSites : List Site)
        (requested : List String) (db : DB) (d : String),
      d ∈ requested → allSites.find? (fun s => s.domain == d) = none →
      ∃ e, handleT prober fetch allSites requested db = ((db, some e), [])) ∧
    (∀ (prober : Prober) (fetch : Fetch) (allSites : List Site)
        (requested : List String) (db : DB) (sites : List Site),
      requestedSites allSites requested = Except.ok sites →
      (∃ s, s ∈ sites ∧ ∃ err, prober s.domain = Except.error err) →
      (handle prober fetch allSites requested db).1 = db ∧
        (handle prober fetch allSites requested db).2.isSome = true) := by
  constructor
  · intro prober fetch allSites requested db d hd hu
    obtain ⟨e, he⟩ := resolveSites_unknown allSites requested d hd hu
    cases requested with
    | nil => cases hd
    | cons r rest => exact ⟨e, by simp [handleT, requestedSites, he]⟩
  · intro prober fetch allSites requested db sites hsites hex
    cases sites with
    | nil =>
      obtain ⟨s, hs, -⟩ := hex
      cases hs
    | cons s0 rest =>
      obtain ⟨e, he⟩ := runScans_cons_errors prober fetch s0 rest db
      constructor <;> simp [handle, hsites, he]

/-- Witness for C2: an unknown requested domain leaves the store untouched
with no probe; and a failing probe over the whole-site batch leaves the
store untouched with an error. -/
theorem batch_all_or_nothing_witness :
    (∃ e, handleT demoProberFail demoFetchFail [demoSite]
        ["unknown.example"] [] = (([], some e), [])) ∧
    ((handle demoProberFail demoFetchFail [demoSite] [] []).1 = [] ∧
      (handle demoProberFail demoFetchFail [demoSite] [] []).2.isSome = true) := by
  constructor
  · exact batch_all_or_nothing.1 demoProberFail demoFetchFail [demoSite]
      ["unknown.example"] [] "unknown.example" (by decide) (by decide)
  · exact batch_all_or_nothing.2 demoProberFail demoFetchFail [demoSite] [] []
      [demoSite] rfl ⟨demoSite, by decide, ProbeExecutionError.mk, rfl⟩

/-- C3: every per-domain scan fails before a Scan record is constructed:
when the transport probe succeeds, the scan stops with the TypeError from
unpacking blacklight's None return value; every scan errors for one
reason or the other; and consequently no batch ever changes the store,
whatever the probe and fetch oracles do. -/
theorem scan_never_creates_record :
    (∀ (prober : Prober) (fetch : Fetch) (site : Site) (db : DB)
        (out : PshttOutput),
      prober site.domain = Except.ok out →
      scan prober fetch site db =
        Except.error (ScanError.unpackNone site.domain)) ∧
    (∀ (prober : Prober) (fetch : Fetch) (site : Site) (db : DB),
      ∃ e, scan prober fetch site db = Except.error e) ∧
    (∀ (prober : Prober) (fetch : Fetch) (allSites : List Site)
        (requested : List String) (db : DB),
      (handle prober fetch allSites requested db).1 = db) := by
  refine ⟨fun prober fetch site db out h => ?_, scan_always_errors,
    fun prober fetch allSites requested db => ?_⟩
  · simp [scan, h, blacklight]
  · cases hr : requestedSites allSites requested with
    | error e => simp [handle, hr]
    | ok sites =>
      cases sites with
      | nil => simp [handle, hr, runScans]
      | cons s0 rest =>
        obtain ⟨e, he⟩ := runScans_cons_errors prober fetch s0 rest db
        simp [handle, hr, he]

/-- Witness for C3: with a prober on which every probe succeeds, the scan
of a concrete site still fails with the unpacking error. -/
theorem scan_never_creates_record_witness :
    scan demoProberOk demoFetchFail demoSite [] =
      Except.error (ScanError.unpackNone "example.com") :=
  scan_never_creates_record.1 demoProberOk demoFetchFail demoSite [] demoOut rfl

end SecureTheNews
